import Mathlib

set_option maxHeartbeats 1000000

/-!
Verification of the chainspec generator's reference-resolution and
key-derivation pipeline, shallowly embedded from the JavaScript source.
Mutating builders become pure `GenesisSpec → ChainConfig → Except String
GenesisSpec` transforms; a thrown string becomes `Except.error`; lodash
iteration over object values becomes iteration over association lists.
The external polkadot keyring primitive is abstracted by a `Crypto`
record of derivation functions (the source initializes one ed25519 and
one sr25519 keyring and derives both keys from the same mnemonic).
-/

namespace ChainspecGen

/-- A `grandpa`/`babe` sub-account of the chain configuration: an object
holding its own seed phrase (possibly absent in the YAML). -/
structure SubAccount where
  seed : Option String
  deriving Repr, DecidableEq

/-- A configured account, as parsed from the chain-config YAML.  `seed`
may be absent; `grandpa`/`babe` sub-accounts may be absent. -/
structure Account where
  seed : Option String
  balance : Nat
  tokens : List (String × Nat)
  grandpa : Option SubAccount
  babe : Option SubAccount
  deriving Repr, DecidableEq

/-- A configured node: host, network peer id and the name of the account
it references. -/
structure NodeCfg where
  host : String
  id : String
  account : String
  deriving Repr, DecidableEq

/-- Chain metadata copied verbatim into the output document. -/
structure ChainMeta where
  name : String
  id : String
  chainType : String
  deriving Repr, DecidableEq

/-- One staking assignment: stash and controller account names plus a
role string (the code compares it against "Validator"). -/
structure StakingEntry where
  stash : String
  controller : String
  role : String
  deriving Repr, DecidableEq

/-- The chain configuration.  `accounts` maps names to account objects;
an entry whose value is `none` stands for a present key bound to an
empty object (lodash `isEmpty` treats it like a missing account).
JavaScript object iteration order is insertion order, modelled by the
list order. -/
structure ChainConfig where
  accounts : List (String × Option Account)
  nodes : List (String × NodeCfg)
  staking : List StakingEntry
  sudo_account : Option String
  meta : ChainMeta
  deriving Repr, DecidableEq

/-- The external keyring primitive, abstracted: `valid` says whether a
mnemonic parses, `srAddr` is the sr25519 (primary) SS58 address, `edHex`
the hex-encoded ed25519 public key, and `srHex` the hex-encoded sr25519
public key (available from the primitive but, as the theorems show,
never used by the source's key bundle). -/
structure Crypto where
  valid : String → Bool
  srAddr : String → String
  edHex : String → String
  srHex : String → String

/-- The key bundle built by `loadKeyFromMemo` in the source. -/
structure KeyBundle where
  address : String
  pubKeyEd25519 : String
  pubKeySr25519 : String
  deriving Repr, DecidableEq

/-- A resolved account: the configured account data enriched with its
derived key bundle (`{...account, accountData}` in the source). -/
structure ResolvedAccount where
  account : Account
  accountData : KeyBundle
  deriving Repr, DecidableEq

/-- The `{grandpa, babe}` object of one session-key triple. -/
structure SessionIds where
  grandpa : String
  babe : String
  deriving Repr, DecidableEq

structure PalletBalances where
  balances : List (String × Nat)
  deriving Repr, DecidableEq

structure OrmlTokens where
  endowedAccounts : List (String × String × Nat)
  deriving Repr, DecidableEq

structure PalletSession where
  keys : List (String × String × SessionIds)
  deriving Repr, DecidableEq

/-- `palletSudo` in the document.  `extra` models any further fields the
input skeleton may carry under `palletSudo` besides `key`; the source
overwrites the whole object with `{ key: ... }`, i.e. `extra := []`. -/
structure PalletSudo where
  key : String
  extra : List (String × String)
  deriving Repr, DecidableEq

structure PalletStaking where
  invulnerables : List String
  validatorCount : Nat
  minimumValidatorCount : Nat
  stakers : List (String × String × Nat × String)
  deriving Repr, DecidableEq

structure RuntimeSec where
  palletBalances : PalletBalances
  ormlTokens : OrmlTokens
  palletSession : PalletSession
  palletSudo : PalletSudo
  palletStaking : PalletStaking
  deriving Repr, DecidableEq

structure GenesisSec where
  runtime : RuntimeSec
  deriving Repr, DecidableEq

/-- The genesis document (the parts touched by the builders). -/
structure GenesisSpec where
  bootNodes : List String
  name : String
  id : String
  chainType : String
  genesis : GenesisSec
  deriving Repr, DecidableEq

/-- Error thrown by the external keyring when `addFromMnemonic` is given
`undefined` (a missing seed); the exact message is the library's, only
its existence matters here. -/
def mnemonicUndefinedMsg : String := "TypeError: mnemonic is not a string"

/-- Error thrown by the external keyring on a string that is not a valid
mnemonic. -/
def invalidMnemonicMsg : String := "Invalid bip39 mnemonic specified"

/-- The string thrown by `getAccountOrFail`. -/
def unknownAccountMsg (accountName : String) : String :=
  "invalid account \"" ++ accountName ++ "\""

/-- The string thrown by `updateSession` when a derived grandpa/babe id
is empty. -/
def incompleteSessionMsg (nodeName accountName : String) : String :=
  "invalid grandpa/babe config for node: \"" ++ nodeName ++
    "\", the account is: \"" ++ accountName ++ "\""

/-- The string thrown by `updateSudo` when the resolved address is empty. -/
def invalidSudoMsg (accountName : String) : String :=
  "invalid sudo account \"" ++ accountName ++ "\""

/-- JavaScript TypeError from `account.grandpa.seed` when `grandpa` is
absent (`undefined`). -/
def grandpaUndefinedMsg : String := "TypeError: cannot read seed of undefined"

/-- `loadKeyFromMemo` from the source: derive the ed25519 and sr25519
keys from one mnemonic.  The source sets `address` to the sr25519
address and, notably, hex-encodes the *ed25519* public key into both
`pubKeyEd25519` and `pubKeySr25519`.  A missing or invalid mnemonic
makes the keyring throw. -/
def loadKeyFromMemo (c : Crypto) (memo : Option String) : Except String KeyBundle :=
  match memo with
  | none => Except.error mnemonicUndefinedMsg
  | some m =>
    if c.valid m then
      Except.ok { address := c.srAddr m, pubKeyEd25519 := c.edHex m, pubKeySr25519 := c.edHex m }
    else
      Except.error invalidMnemonicMsg

/-- `_.get(chainConfig, ['accounts', accountName])`: `none` when the
name is not a key; `some none` when it is bound to an empty value. -/
def lookupAccount (cc : ChainConfig) (accountName : String) : Option (Option Account) :=
  (cc.accounts.find? (fun p => p.1 == accountName)).map (fun p => p.2)

/-- `getAccountOrFail` from the source: throw on a missing or empty
account, otherwise enrich the account with its derived key bundle. -/
def getAccountOrFail (c : Crypto) (cc : ChainConfig) (accountName : String) :
    Except String ResolvedAccount :=
  match lookupAccount cc accountName with
  | none => Except.error (unknownAccountMsg accountName)
  | some none => Except.error (unknownAccountMsg accountName)
  | some (some account) =>
    match loadKeyFromMemo c account.seed with
    | Except.error e => Except.error e
    | Except.ok accountData => Except.ok { account := account, accountData := accountData }

/-- `_.map` with a callback that may throw: elements are processed left
to right and the first thrown error aborts the whole map. -/
def exMap {α β : Type} (f : α → Except String β) : List α → Except String (List β)
  | [] => Except.ok []
  | x :: xs =>
    match f x with
    | Except.error e => Except.error e
    | Except.ok y =>
      match exMap f xs with
      | Except.error e => Except.error e
      | Except.ok ys => Except.ok (y :: ys)

/-- `updateBootNodes`: one multiaddress per configured node. -/
def updateBootNodes (config : GenesisSpec) (cc : ChainConfig) : Except String GenesisSpec :=
  Except.ok { config with
    bootNodes := cc.nodes.map (fun p => "/dns/" ++ p.2.host ++ "/tcp/30334/p2p/" ++ p.2.id) }

/-- `updateNaming`: copy the chain metadata to the top level. -/
def updateNaming (config : GenesisSpec) (cc : ChainConfig) : Except String GenesisSpec :=
  Except.ok { config with name := cc.meta.name, id := cc.meta.id, chainType := cc.meta.chainType }

/-- `account.seed` read through a possibly-empty account value. -/
def accountSeed (v : Option Account) : Option String := v.bind (fun a => a.seed)

/-- `account.balance` read through a possibly-empty account value (the
default is never observable: derivation fails first on such accounts). -/
def accountBalance (v : Option Account) : Nat := (v.map (fun a => a.balance)).getD 0

/-- `account.tokens`, with lodash mapping a missing field to `[]`. -/
def accountTokens (v : Option Account) : List (String × Nat) := (v.map (fun a => a.tokens)).getD []

/-- The `updateBalances` loop body: derive the account's keys and emit
`[address, balance]`. -/
def balanceEntry (c : Crypto) (p : String × Option Account) : Except String (String × Nat) :=
  match loadKeyFromMemo c (accountSeed p.2) with
  | Except.error e => Except.error e
  | Except.ok data => Except.ok (data.address, accountBalance p.2)

/-- `updateBalances` from the source. -/
def updateBalances (c : Crypto) (config : GenesisSpec) (cc : ChainConfig) :
    Except String GenesisSpec :=
  match exMap (balanceEntry c) cc.accounts with
  | Except.error e => Except.error e
  | Except.ok balances =>
    Except.ok { config with genesis.runtime.palletBalances.balances := balances }

/-- The `updateTokens` loop body: derive the account's keys and emit one
`[address, tokenName, amount]` triple per token entry. -/
def tokenEntries (c : Crypto) (p : String × Option Account) :
    Except String (List (String × String × Nat)) :=
  match loadKeyFromMemo c (accountSeed p.2) with
  | Except.error e => Except.error e
  | Except.ok data => Except.ok ((accountTokens p.2).map (fun t => (data.address, t.1, t.2)))

/-- `updateTokens` from the source: per-account lists, flattened. -/
def updateTokens (c : Crypto) (config : GenesisSpec) (cc : ChainConfig) :
    Except String GenesisSpec :=
  match exMap (tokenEntries c) cc.accounts with
  | Except.error e => Except.error e
  | Except.ok lists =>
    Except.ok { config with genesis.runtime.ormlTokens.endowedAccounts := lists.flatten }

/-- `updateSudo` from the source: resolve `sudo_account` (defaulting the
name to "") and overwrite the whole `palletSudo` object with
`{ key: address }`. -/
def updateSudo (c : Crypto) (config : GenesisSpec) (cc : ChainConfig) :
    Except String GenesisSpec :=
  match getAccountOrFail c cc (cc.sudo_account.getD "") with
  | Except.error e => Except.error e
  | Except.ok rootAccount =>
    if rootAccount.accountData.address = "" then
      Except.error (invalidSudoMsg (cc.sudo_account.getD ""))
    else
      Except.ok { config with genesis.runtime.palletSudo :=
        { key := rootAccount.accountData.address, extra := [] } }

/-- The `updateSession` loop body.  The source reads
`account.grandpa.seed` directly (a TypeError when `grandpa` is absent)
but `_.get(account, 'babe.seed')` for babe (an `undefined` seed when
babe is absent, which makes the keyring throw); the node/account
identifying error fires only when a *derived* id is empty. -/
def sessionKeyOfNode (c : Crypto) (cc : ChainConfig) (p : String × NodeCfg) :
    Except String (String × String × SessionIds) :=
  match getAccountOrFail c cc p.2.account with
  | Except.error e => Except.error e
  | Except.ok account =>
    match account.account.grandpa with
    | none => Except.error grandpaUndefinedMsg
    | some gp =>
      match loadKeyFromMemo c gp.seed with
      | Except.error e => Except.error e
      | Except.ok grandpa =>
        match loadKeyFromMemo c (account.account.babe.bind (fun b => b.seed)) with
        | Except.error e => Except.error e
        | Except.ok babe =>
          if grandpa.address = "" ∨ babe.address = "" then
            Except.error (incompleteSessionMsg p.1 p.2.account)
          else
            Except.ok (account.accountData.address, account.accountData.address,
              { grandpa := grandpa.address, babe := babe.address })

/-- `updateSession` from the source. -/
def updateSession (c : Crypto) (config : GenesisSpec) (cc : ChainConfig) :
    Except String GenesisSpec :=
  match exMap (sessionKeyOfNode c cc) cc.nodes with
  | Except.error e => Except.error e
  | Except.ok keys =>
    Except.ok { config with genesis.runtime.palletSession.keys := keys }

/-- The invulnerables loop body of `updateStaking`: a validator entry's
stash address. -/
def invulnerableEntry (c : Crypto) (cc : ChainConfig) (a : StakingEntry) :
    Except String String :=
  match getAccountOrFail c cc a.stash with
  | Except.error e => Except.error e
  | Except.ok r => Except.ok r.accountData.address

/-- The stakers loop body of `updateStaking`: resolve stash and
controller and emit the 4-tuple with the fixed stake constant. -/
def stakerEntry (c : Crypto) (cc : ChainConfig) (a : StakingEntry) :
    Except String (String × String × Nat × String) :=
  match getAccountOrFail c cc a.stash with
  | Except.error e => Except.error e
  | Except.ok stashAccount =>
    match getAccountOrFail c cc a.controller with
    | Except.error e => Except.error e
    | Except.ok controllerAccount =>
      Except.ok (stashAccount.accountData.address, controllerAccount.accountData.address,
        100000000000000, a.role)

/-- `updateStaking` from the source: invulnerables from the validator
entries' stashes, `validatorCount = max(2, 2v)`,
`minimumValidatorCount = v`, and one staker 4-tuple per entry. -/
def updateStaking (c : Crypto) (config : GenesisSpec) (cc : ChainConfig) :
    Except String GenesisSpec :=
  match exMap (invulnerableEntry c cc) (cc.staking.filter (fun a => a.role == "Validator")) with
  | Except.error e => Except.error e
  | Except.ok stakingAccounts =>
    match exMap (stakerEntry c cc) cc.staking with
    | Except.error e => Except.error e
    | Except.ok stakers =>
      Except.ok { config with genesis.runtime.palletStaking :=
        { invulnerables := stakingAccounts,
          validatorCount := max 2 (stakingAccounts.length * 2),
          minimumValidatorCount := stakingAccounts.length,
          stakers := stakers } }

/-- A section builder, as stored in `chainSpecModifiers`. -/
abbrev Builder : Type := GenesisSpec → ChainConfig → Except String GenesisSpec

/-- The `chainSpecModifiers` object of the source, in its (insertion)
iteration order. -/
def chainSpecModifiers (c : Crypto) : List Builder :=
  [updateBootNodes, updateNaming, updateBalances c, updateTokens c, updateSession c,
   updateSudo c, updateStaking c]

/-- The driver's `_.forEach` over the modifiers: thread the document
through the builders, aborting at the first thrown error. -/
def runBuilders (mods : List Builder) (config : GenesisSpec) (cc : ChainConfig) :
    Except String GenesisSpec :=
  match mods with
  | [] => Except.ok config
  | b :: bs =>
    match b config cc with
    | Except.error e => Except.error e
    | Except.ok c2 => runBuilders bs c2 cc

/-- The whole pipeline of `main`'s try block. -/
def runPipeline (c : Crypto) (config : GenesisSpec) (cc : ChainConfig) :
    Except String GenesisSpec :=
  runBuilders (chainSpecModifiers c) config cc

/-- What `main` writes to the output file: the updated document on
success, nothing when any builder threw (the catch block only logs). -/
def mainOutput (c : Crypto) (config : GenesisSpec) (cc : ChainConfig) : Option GenesisSpec :=
  match runPipeline c config cc with
  | Except.ok out => some out
  | Except.error _ => none

/-- Boolean success test for an `Except` result. -/
def okB {α : Type} : Except String α → Bool
  | Except.ok _ => true
  | Except.error _ => false

/-- Map over the success value of an `Except` result. -/
def mapOk {α β : Type} (f : α → β) : Except String α → Except String β
  | Except.ok a => Except.ok (f a)
  | Except.error e => Except.error e

/-- Spec-side account lookup: the configured account when present and
non-empty. -/
def accountVal (cc : ChainConfig) (accountName : String) : Option Account :=
  match lookupAccount cc accountName with
  | some (some a) => some a
  | _ => none

/-- Spec-side primary address of an account value: the primary-scheme
(sr25519) address derived from its seed.  The "" default is never
observable under the success hypotheses of the theorems below. -/
def specPrimaryAddr (c : Crypto) (v : Option Account) : String :=
  c.srAddr ((accountSeed v).getD "")

/-- Spec-side primary address of a named account. -/
def specResolvedAddr (c : Crypto) (cc : ChainConfig) (accountName : String) : String :=
  specPrimaryAddr c (accountVal cc accountName)

/-- Spec-side session triple of one node, following the amended claim:
the first two components are the account's primary address and the
grandpa/babe ids are the sr25519 addresses derived from the sub-seeds. -/
def specSessionTriple (c : Crypto) (cc : ChainConfig) (node : NodeCfg) :
    String × String × SessionIds :=
  (specResolvedAddr c cc node.account, specResolvedAddr c cc node.account,
    { grandpa := c.srAddr (((accountVal cc node.account).bind
        (fun a => a.grandpa.bind (fun g => g.seed))).getD ""),
      babe := c.srAddr (((accountVal cc node.account).bind
        (fun a => a.babe.bind (fun b => b.seed))).getD "") })

/-! ### General lemmas about the embedding's combinators -/

/-- A successful `exMap` produces one output per input. -/
theorem exMap_ok_length {α β : Type} (f : α → Except String β) :
    ∀ (xs : List α) (ys : List β), exMap f xs = Except.ok ys → ys.length = xs.length := by
  intro xs
  induction xs with
  | nil =>
    intro ys h
    simp [exMap] at h
    simp [← h]
  | cons x xs ih =>
    intro ys h
    unfold exMap at h
    cases hfx : f x with
    | error e => rw [hfx] at h; exact absurd h (by simp)
    | ok y =>
      rw [hfx] at h
      cases hrest : exMap f xs with
      | error e => rw [hrest] at h; exact absurd h (by simp)
      | ok ys2 =>
        rw [hrest] at h
        have hy : y :: ys2 = ys := by exact Except.ok.inj h
        rw [← hy]
        simp [ih ys2 hrest]

/-- A successful `exMap` whose per-element successes are characterized
by a pure function `g` equals the plain map of `g`. -/
theorem exMap_eq_map_of_ok {α β : Type} (f : α → Except String β) (g : α → β) :
    ∀ (xs : List α) (ys : List β), exMap f xs = Except.ok ys →
      (∀ x ∈ xs, ∀ y, f x = Except.ok y → y = g x) → ys = xs.map g := by
  intro xs
  induction xs with
  | nil =>
    intro ys h _
    simp [exMap] at h
    simp [← h]
  | cons x xs ih =>
    intro ys h hpt
    unfold exMap at h
    cases hfx : f x with
    | error e => rw [hfx] at h; exact absurd h (by simp)
    | ok y =>
      rw [hfx] at h
      cases hrest : exMap f xs with
      | error e => rw [hrest] at h; exact absurd h (by simp)
      | ok ys2 =>
        rw [hrest] at h
        have hy : y :: ys2 = ys := Except.ok.inj h
        have h1 : y = g x := hpt x (List.mem_cons_self x xs) y hfx
        have h2 : ys2 = xs.map g :=
          ih ys2 hrest (fun a ha z hz => hpt a (List.mem_cons_of_mem x ha) z hz)
        rw [← hy, h1, h2]
        simp

/-- If every element maps to a known success, `exMap` succeeds with the
plain map. -/
theorem exMap_map_of_pointwise {α β : Type} (f : α → Except String β) (g : α → β) :
    ∀ (xs : List α), (∀ x ∈ xs, f x = Except.ok (g x)) →
      exMap f xs = Except.ok (xs.map g) := by
  intro xs
  induction xs with
  | nil => intro _; simp [exMap]
  | cons x xs ih =>
    intro hpt
    unfold exMap
    rw [hpt x (List.mem_cons_self x xs), ih (fun a ha => hpt a (List.mem_cons_of_mem x ha))]
    simp

/-- Inversion for a successful key derivation: the mnemonic was present
and valid, and the bundle is exactly the one the source assembles. -/
theorem loadKeyFromMemo_ok_inv (c : Crypto) (mo : Option String) (b : KeyBundle)
    (h : loadKeyFromMemo c mo = Except.ok b) :
    ∃ m, mo = some m ∧ c.valid m = true ∧
      b = { address := c.srAddr m, pubKeyEd25519 := c.edHex m, pubKeySr25519 := c.edHex m } := by
  cases mo with
  | none => exact absurd h (by simp [loadKeyFromMemo])
  | some m =>
    refine ⟨m, rfl, ?_, ?_⟩
    · by_cases hv : c.valid m = true
      · exact hv
      · exact absurd h (by simp [loadKeyFromMemo, hv])
    · by_cases hv : c.valid m = true
      · have := h
        rw [loadKeyFromMemo, if_pos hv] at this
        exact (Except.ok.inj this).symm
      · exact absurd h (by simp [loadKeyFromMemo, hv])

/-- Inversion for a successful account resolution: the name was bound to
a non-empty account and the bundle was derived from its seed. -/
theorem getAccountOrFail_ok_inv (c : Crypto) (cc : ChainConfig) (n : String)
    (r : ResolvedAccount) (h : getAccountOrFail c cc n = Except.ok r) :
    lookupAccount cc n = some (some r.account) ∧
    loadKeyFromMemo c r.account.seed = Except.ok r.accountData := by
  unfold getAccountOrFail at h
  split at h
  · exact absurd h (by simp)
  · exact absurd h (by simp)
  · rename_i a hl
    split at h
    · exact absurd h (by simp)
    · rename_i kd hk
      have hr : ResolvedAccount.mk a kd = r := Except.ok.inj h
      rw [← hr]
      exact ⟨hl, hk⟩

/-- A successfully resolved account's address is the spec-side primary
address of that name. -/
theorem getAccountOrFail_ok_addr (c : Crypto) (cc : ChainConfig) (n : String)
    (r : ResolvedAccount) (h : getAccountOrFail c cc n = Except.ok r) :
    r.accountData.address = specResolvedAddr c cc n := by
  obtain ⟨hl, hk⟩ := getAccountOrFail_ok_inv c cc n r h
  obtain ⟨s, hs, _, hb⟩ := loadKeyFromMemo_ok_inv c _ _ hk
  unfold specResolvedAddr specPrimaryAddr accountVal accountSeed
  rw [hl, hb]
  simp [hs]

/-- `okB` success is existence of an `ok` value. -/
theorem okB_true_iff {α : Type} (e : Except String α) :
    okB e = true ↔ ∃ y, e = Except.ok y := by
  cases e with
  | ok y => simp [okB]
  | error e => simp [okB]

/-- Splitting a successful builder run at a list append. -/
theorem runBuilders_append_ok (ys : List Builder) (cc : ChainConfig) :
    ∀ (xs : List Builder) (config c2 : GenesisSpec),
      runBuilders xs config cc = Except.ok c2 →
      runBuilders (xs ++ ys) config cc = runBuilders ys c2 cc := by
  intro xs
  induction xs with
  | nil =>
    intro config c2 h
    have : config = c2 := Except.ok.inj h
    rw [List.nil_append, this]
  | cons b bs ih =>
    intro config c2 h
    have hstep : runBuilders (b :: bs) config cc =
        match b config cc with
        | Except.error e => Except.error e
        | Except.ok c3 => runBuilders bs c3 cc := rfl
    have hstep2 : runBuilders (b :: (bs ++ ys)) config cc =
        match b config cc with
        | Except.error e => Except.error e
        | Except.ok c3 => runBuilders (bs ++ ys) c3 cc := rfl
    rw [hstep] at h
    rw [List.cons_append, hstep2]
    cases hb : b config cc with
    | error e => rw [hb] at h; exact absurd h (by simp)
    | ok c3 =>
      rw [hb] at h
      simp only
      exact ih c3 c2 h

/-- A failure in the first part of an appended builder run is the
failure of the whole run, whatever follows. -/
theorem runBuilders_append_error (ys : List Builder) (cc : ChainConfig) :
    ∀ (xs : List Builder) (config : GenesisSpec) (e : String),
      runBuilders xs config cc = Except.error e →
      runBuilders (xs ++ ys) config cc = Except.error e := by
  intro xs
  induction xs with
  | nil => intro config e h; exact absurd h (by simp [runBuilders])
  | cons b bs ih =>
    intro config e h
    have hstep : runBuilders (b :: bs) config cc =
        match b config cc with
        | Except.error e2 => Except.error e2
        | Except.ok c3 => runBuilders bs c3 cc := rfl
    have hstep2 : runBuilders (b :: (bs ++ ys)) config cc =
        match b config cc with
        | Except.error e2 => Except.error e2
        | Except.ok c3 => runBuilders (bs ++ ys) c3 cc := rfl
    rw [hstep] at h
    rw [List.cons_append, hstep2]
    cases hb : b config cc with
    | error e2 => rw [hb] at h; rw [← h]
    | ok c3 =>
      rw [hb] at h
      simp only
      exact ih c3 e h

/-- If one member builder fails on every document, the whole run fails. -/
theorem runBuilders_okB_false_of_mem (b : Builder) (cc : ChainConfig)
    (hfail : ∀ cfg : GenesisSpec, okB (b cfg cc) = false) :
    ∀ (mods : List Builder), b ∈ mods →
      ∀ config : GenesisSpec, okB (runBuilders mods config cc) = false := by
  intro mods
  induction mods with
  | nil => intro hb; cases hb
  | cons b0 bs ih =>
    intro hb config
    rcases List.mem_cons.mp hb with heq | hmem
    · rw [heq] at hfail
      have hf := hfail config
      unfold runBuilders
      cases hb0 : b0 config cc with
      | error e => simp [okB]
      | ok c2 => rw [hb0] at hf; exact absurd hf (by simp [okB])
    · unfold runBuilders
      cases hb0 : b0 config cc with
      | error e => simp [okB]
      | ok c2 => simp [ih hmem c2]

/-- A successful balances loop body yields the spec-side pair. -/
theorem balanceEntry_ok_eq (c : Crypto) (p : String × Option Account) (y : String × Nat)
    (h : balanceEntry c p = Except.ok y) : y = (specPrimaryAddr c p.2, accountBalance p.2) := by
  unfold balanceEntry at h
  split at h
  · exact absurd h (by simp)
  · rename_i data hk
    obtain ⟨s, hs, _, hb⟩ := loadKeyFromMemo_ok_inv c _ _ hk
    have hy : (data.address, accountBalance p.2) = y := Except.ok.inj h
    rw [← hy, hb]
    unfold specPrimaryAddr
    simp [hs]

/-- A successful tokens loop body yields the spec-side triples. -/
theorem tokenEntries_ok_eq (c : Crypto) (p : String × Option Account)
    (y : List (String × String × Nat)) (h : tokenEntries c p = Except.ok y) :
    y = (accountTokens p.2).map (fun t => (specPrimaryAddr c p.2, t.1, t.2)) := by
  unfold tokenEntries at h
  split at h
  · exact absurd h (by simp)
  · rename_i data hk
    obtain ⟨s, hs, _, hb⟩ := loadKeyFromMemo_ok_inv c _ _ hk
    have hy : (accountTokens p.2).map (fun t => (data.address, t.1, t.2)) = y := Except.ok.inj h
    rw [← hy, hb]
    unfold specPrimaryAddr
    simp [hs]

/-- A successful invulnerables loop body yields the stash's spec-side
address. -/
theorem invulnerableEntry_ok_eq (c : Crypto) (cc : ChainConfig) (a : StakingEntry) (y : String)
    (h : invulnerableEntry c cc a = Except.ok y) : y = specResolvedAddr c cc a.stash := by
  unfold invulnerableEntry at h
  split at h
  · exact absurd h (by simp)
  · rename_i r hr
    have hy : r.accountData.address = y := Except.ok.inj h
    rw [← hy]
    exact getAccountOrFail_ok_addr c cc a.stash r hr

/-- A successful stakers loop body yields the spec-side 4-tuple. -/
theorem stakerEntry_ok_eq (c : Crypto) (cc : ChainConfig) (a : StakingEntry)
    (y : String × String × Nat × String) (h : stakerEntry c cc a = Except.ok y) :
    y = (specResolvedAddr c cc a.stash, specResolvedAddr c cc a.controller,
      100000000000000, a.role) := by
  unfold stakerEntry at h
  split at h
  · exact absurd h (by simp)
  · rename_i stashAccount hstash
    split at h
    · exact absurd h (by simp)
    · rename_i controllerAccount hctrl
      have hy : (stashAccount.accountData.address, controllerAccount.accountData.address,
          (100000000000000 : Nat), a.role) = y := Except.ok.inj h
      rw [← hy, getAccountOrFail_ok_addr c cc a.stash stashAccount hstash,
        getAccountOrFail_ok_addr c cc a.controller controllerAccount hctrl]

/-- A resolvable stash makes the invulnerables loop body succeed with
the spec-side address. -/
theorem invulnerableEntry_ok_of (c : Crypto) (cc : ChainConfig) (a : StakingEntry)
    (h : okB (getAccountOrFail c cc a.stash) = true) :
    invulnerableEntry c cc a = Except.ok (specResolvedAddr c cc a.stash) := by
  obtain ⟨r, hr⟩ := (okB_true_iff _).mp h
  unfold invulnerableEntry
  rw [hr]
  simp only
  rw [getAccountOrFail_ok_addr c cc a.stash r hr]

/-- Resolvable stash and controller make the stakers loop body succeed
with the spec-side 4-tuple. -/
theorem stakerEntry_ok_of (c : Crypto) (cc : ChainConfig) (a : StakingEntry)
    (h1 : okB (getAccountOrFail c cc a.stash) = true)
    (h2 : okB (getAccountOrFail c cc a.controller) = true) :
    stakerEntry c cc a = Except.ok (specResolvedAddr c cc a.stash,
      specResolvedAddr c cc a.controller, 100000000000000, a.role) := by
  obtain ⟨r1, hr1⟩ := (okB_true_iff _).mp h1
  obtain ⟨r2, hr2⟩ := (okB_true_iff _).mp h2
  unfold stakerEntry
  rw [hr1]
  simp only
  rw [hr2]
  simp only
  rw [getAccountOrFail_ok_addr c cc a.stash r1 hr1,
    getAccountOrFail_ok_addr c cc a.controller r2 hr2]

/-- A successful session loop body yields the spec-side triple (the
amended claim's shape: sr25519 addresses throughout). -/
theorem sessionKeyOfNode_ok_eq (c : Crypto) (cc : ChainConfig) (p : String × NodeCfg)
    (y : String × String × SessionIds) (h : sessionKeyOfNode c cc p = Except.ok y) :
    y = specSessionTriple c cc p.2 := by
  unfold sessionKeyOfNode at h
  split at h
  · exact absurd h (by simp)
  · rename_i account hacc
    obtain ⟨hl, hk⟩ := getAccountOrFail_ok_inv c cc p.2.account account hacc
    obtain ⟨s, hs, _, hbund⟩ := loadKeyFromMemo_ok_inv c _ _ hk
    split at h
    · exact absurd h (by simp)
    · rename_i gp hg
      split at h
      · exact absurd h (by simp)
      · rename_i grandpa hkg
        obtain ⟨gs, hgs, _, hgb⟩ := loadKeyFromMemo_ok_inv c _ _ hkg
        split at h
        · exact absurd h (by simp)
        · rename_i babe hkb
          obtain ⟨bs, hbs, _, hbb⟩ := loadKeyFromMemo_ok_inv c _ _ hkb
          split at h
          · exact absurd h (by simp)
          · have hy : (account.accountData.address, account.accountData.address,
                SessionIds.mk grandpa.address babe.address) = y := Except.ok.inj h
            rw [← hy]
            unfold specSessionTriple specResolvedAddr specPrimaryAddr accountVal accountSeed
            rw [hl, hbund, hgb, hbb]
            simp [hs, hg, hgs, hbs]

/-- A failed pipeline writes no output. -/
theorem mainOutput_eq_none (c : Crypto) (config : GenesisSpec) (cc : ChainConfig)
    (h : okB (runPipeline c config cc) = false) : mainOutput c config cc = none := by
  unfold mainOutput
  cases hp : runPipeline c config cc with
  | ok out => rw [hp] at h; exact absurd h (by simp [okB])
  | error e => simp

/-! ### Claim theorems -/

/-- Claim C8: after the balances builder runs, `palletBalances.balances`
contains exactly one pair per configured account, in configuration
iteration order, each pair being (primary address derived from that
account's seed, that account's balance). -/
theorem claim_C8 (c : Crypto) (config : GenesisSpec) (cc : ChainConfig) (out : GenesisSpec)
    (h : updateBalances c config cc = Except.ok out) :
    out.genesis.runtime.palletBalances.balances =
      cc.accounts.map (fun p => (specPrimaryAddr c p.2, accountBalance p.2)) := by
  unfold updateBalances at h
  split at h
  · exact absurd h (by simp)
  · rename_i balances hm
    have hout : _ = out := Except.ok.inj h
    rw [← hout]
    exact exMap_eq_map_of_ok (balanceEntry c) _ cc.accounts balances hm
      (fun p _ y hy => balanceEntry_ok_eq c p y hy)

/-- Claim C6: after the tokens builder runs,
`ormlTokens.endowedAccounts` has length equal to the sum over all
accounts of the number of token entries, and equals the flattening, per
account then per token, of triples whose first element is that account's
derived primary address. -/
theorem claim_C6 (c : Crypto) (config : GenesisSpec) (cc : ChainConfig) (out : GenesisSpec)
    (h : updateTokens c config cc = Except.ok out) :
    out.genesis.runtime.ormlTokens.endowedAccounts.length =
      (cc.accounts.map (fun p => (accountTokens p.2).length)).sum ∧
    out.genesis.runtime.ormlTokens.endowedAccounts =
      (cc.accounts.map (fun p => (accountTokens p.2).map
        (fun t => (specPrimaryAddr c p.2, t.1, t.2)))).flatten := by
  unfold updateTokens at h
  split at h
  · exact absurd h (by simp)
  · rename_i lists hm
    have hout : _ = out := Except.ok.inj h
    rw [← hout]
    have hl : lists = cc.accounts.map (fun p => (accountTokens p.2).map
        (fun t => (specPrimaryAddr c p.2, t.1, t.2))) :=
      exMap_eq_map_of_ok (tokenEntries c) _ cc.accounts lists hm
        (fun p _ y hy => tokenEntries_ok_eq c p y hy)
    constructor
    · show lists.flatten.length = _
      rw [hl, List.length_flatten, List.map_map]
      exact congrArg List.sum (List.map_congr_left (fun p _ => by simp))
    · show lists.flatten = _
      rw [hl]

/-- Claim C2: after the staking builder runs,
`palletStaking.validatorCount = max(2, 2v)` and
`palletStaking.minimumValidatorCount = v`, where `v` is the number of
staking entries whose role is "Validator". -/
theorem claim_C2 (c : Crypto) (config : GenesisSpec) (cc : ChainConfig) (out : GenesisSpec)
    (h : updateStaking c config cc = Except.ok out) :
    out.genesis.runtime.palletStaking.validatorCount =
      max 2 (2 * (cc.staking.filter (fun a => a.role == "Validator")).length) ∧
    out.genesis.runtime.palletStaking.minimumValidatorCount =
      (cc.staking.filter (fun a => a.role == "Validator")).length := by
  unfold updateStaking at h
  split at h
  · exact absurd h (by simp)
  · rename_i stakingAccounts hinv
    split at h
    · exact absurd h (by simp)
    · rename_i stakers hst
      have hout : _ = out := Except.ok.inj h
      rw [← hout]
      have hlen := exMap_ok_length _ _ _ hinv
      constructor
      · show max 2 (stakingAccounts.length * 2) = _
        rw [hlen, Nat.mul_comm]
      · show stakingAccounts.length = _
        rw [hlen]

/-- Claim C7: when every stash and controller of the staking list
resolves, the staking builder sets `palletStaking.stakers` to one
4-tuple per staking entry, validators and non-validators alike, equal to
(stash address, controller address, 100000000000000, role), in
staking-list order. -/
theorem claim_C7 (c : Crypto) (config : GenesisSpec) (cc : ChainConfig)
    (h : ∀ a ∈ cc.staking, okB (getAccountOrFail c cc a.stash) = true ∧
         okB (getAccountOrFail c cc a.controller) = true) :
    mapOk (fun out => out.genesis.runtime.palletStaking.stakers) (updateStaking c config cc) =
      Except.ok (cc.staking.map (fun a => (specResolvedAddr c cc a.stash,
        specResolvedAddr c cc a.controller, 100000000000000, a.role))) := by
  have hstakers : exMap (stakerEntry c cc) cc.staking = Except.ok (cc.staking.map (fun a =>
      (specResolvedAddr c cc a.stash, specResolvedAddr c cc a.controller,
        100000000000000, a.role))) :=
    exMap_map_of_pointwise _ _ _ (fun a ha => stakerEntry_ok_of c cc a (h a ha).1 (h a ha).2)
  have hinv : exMap (invulnerableEntry c cc)
      (cc.staking.filter (fun a => a.role == "Validator")) =
      Except.ok ((cc.staking.filter (fun a => a.role == "Validator")).map
        (fun a => specResolvedAddr c cc a.stash)) :=
    exMap_map_of_pointwise _ _ _
      (fun a ha => invulnerableEntry_ok_of c cc a (h a (List.mem_of_mem_filter ha)).1)
  simp [updateStaking, hinv, hstakers, mapOk]

/-- Claim C9: for every successfully derived key bundle, the
`pubKeySr25519` field is byte-for-byte equal to the `pubKeyEd25519`
field (both hex-encode the ed25519 public key), `address` is the sr25519
address, and no field carries the sr25519 public key hex (whenever that
encoding differs from the ed25519 one). -/
theorem claim_C9 (c : Crypto) (m : String) (b : KeyBundle)
    (h : loadKeyFromMemo c (some m) = Except.ok b) :
    b.pubKeySr25519 = b.pubKeyEd25519 ∧ b.pubKeyEd25519 = c.edHex m ∧
    b.pubKeySr25519 = c.edHex m ∧ b.address = c.srAddr m ∧
    (c.srHex m ≠ c.edHex m → b.pubKeySr25519 ≠ c.srHex m ∧ b.pubKeyEd25519 ≠ c.srHex m) := by
  obtain ⟨m2, hm2, _, hb⟩ := loadKeyFromMemo_ok_inv c (some m) b h
  have hmm : m = m2 := Option.some.inj hm2
  subst hmm
  subst hb
  exact ⟨rfl, rfl, rfl, rfl, fun hne => ⟨Ne.symm hne, Ne.symm hne⟩⟩

/-- Claim C10: the sudo builder replaces the whole `palletSudo` object
with one holding only the resolved key; any other fields under
`palletSudo` in the input are absent from the output, and every other
part of the document is unchanged. -/
theorem claim_C10 (c : Crypto) (config : GenesisSpec) (cc : ChainConfig) (out : GenesisSpec)
    (h : updateSudo c config cc = Except.ok out) :
    out.genesis.runtime.palletSudo.extra = [] ∧
    out.genesis.runtime.palletSudo.key = specResolvedAddr c cc (cc.sudo_account.getD "") ∧
    out.bootNodes = config.bootNodes ∧ out.name = config.name ∧ out.id = config.id ∧
    out.chainType = config.chainType ∧
    out.genesis.runtime.palletBalances = config.genesis.runtime.palletBalances ∧
    out.genesis.runtime.ormlTokens = config.genesis.runtime.ormlTokens ∧
    out.genesis.runtime.palletSession = config.genesis.runtime.palletSession ∧
    out.genesis.runtime.palletStaking = config.genesis.runtime.palletStaking := by
  unfold updateSudo at h
  split at h
  · exact absurd h (by simp)
  · rename_i rootAccount hroot
    split at h
    · exact absurd h (by simp)
    · have hout : _ = out := Except.ok.inj h
      rw [← hout]
      refine ⟨rfl, ?_, rfl, rfl, rfl, rfl, rfl, rfl, rfl, rfl⟩
      show rootAccount.accountData.address = _
      exact getAccountOrFail_ok_addr c cc _ rootAccount hroot

/-- Claim C1 (amended): after the session builder runs,
`palletSession.keys` holds one triple per node, in node iteration order,
whose first and second elements are the referenced account's primary
sr25519 address and whose third element is `{grandpa, babe}` holding the
*sr25519 addresses* derived from the grandpa and babe sub-seeds (the
source emits `.address`, not the hex-encoded ed25519 keys the original
claim states). -/
theorem claim_C1 (c : Crypto) (config : GenesisSpec) (cc : ChainConfig) (out : GenesisSpec)
    (h : updateSession c config cc = Except.ok out) :
    out.genesis.runtime.palletSession.keys =
      cc.nodes.map (fun p => specSessionTriple c cc p.2) := by
  unfold updateSession at h
  split at h
  · exact absurd h (by simp)
  · rename_i keys hm
    have hout : _ = out := Except.ok.inj h
    rw [← hout]
    exact exMap_eq_map_of_ok (sessionKeyOfNode c cc) _ cc.nodes keys hm
      (fun p _ y hy => sessionKeyOfNode_ok_eq c cc p y hy)

/-- Claim C3: when a builder fails, the driver aborts at that first
failure: the pipeline's result is that builder's error whatever builders
follow it, and the output document is not produced. -/
theorem claim_C3 (c : Crypto) (config : GenesisSpec) (cc : ChainConfig)
    (pre : List Builder) (b : Builder) (post : List Builder) (cfg1 : GenesisSpec) (e : String)
    (hmods : chainSpecModifiers c = pre ++ b :: post)
    (hpre : runBuilders pre config cc = Except.ok cfg1)
    (hfail : b cfg1 cc = Except.error e) :
    runPipeline c config cc = Except.error e ∧
    mainOutput c config cc = none ∧
    ∀ post2 : List Builder, runBuilders (pre ++ b :: post2) config cc = Except.error e := by
  have hgen : ∀ post2 : List Builder,
      runBuilders (pre ++ b :: post2) config cc = Except.error e := by
    intro post2
    rw [runBuilders_append_ok (b :: post2) cc pre config cfg1 hpre]
    have hstep : runBuilders (b :: post2) cfg1 cc =
        match b cfg1 cc with
        | Except.error e2 => Except.error e2
        | Except.ok c3 => runBuilders post2 c3 cc := rfl
    rw [hstep, hfail]
  have hpipe : runPipeline c config cc = Except.error e := by
    unfold runPipeline
    rw [hmods]
    exact hgen post
  refine ⟨hpipe, ?_, hgen⟩
  apply mainOutput_eq_none
  rw [hpipe]
  rfl

/-- Claim C4 (amended): resolution fails with the unknown-account error
carrying the name whenever the name is absent or bound to an empty
value; a success is always fully populated (the configured account plus
the bundle derived from its seed); but for a present, non-empty account
the outcome is exactly that of deriving its seed, so resolution can
*also* fail — with the key-derivation error — when the seed is missing
or invalid, which the original "fails exactly when absent or empty"
claim excludes. -/
theorem claim_C4 (c : Crypto) (cc : ChainConfig) (n : String) :
    ((lookupAccount cc n = none ∨ lookupAccount cc n = some none) →
      getAccountOrFail c cc n = Except.error (unknownAccountMsg n)) ∧
    (∀ r, getAccountOrFail c cc n = Except.ok r →
      lookupAccount cc n = some (some r.account) ∧
      loadKeyFromMemo c r.account.seed = Except.ok r.accountData) ∧
    (∀ a, lookupAccount cc n = some (some a) →
      getAccountOrFail c cc n =
        mapOk (fun accountData => ResolvedAccount.mk a accountData)
          (loadKeyFromMemo c a.seed)) := by
  refine ⟨?_, fun r hr => getAccountOrFail_ok_inv c cc n r hr, ?_⟩
  · intro hcase
    rcases hcase with hnone | hemp
    · simp [getAccountOrFail, hnone]
    · simp [getAccountOrFail, hemp]
  · intro a ha
    cases hk : loadKeyFromMemo c a.seed with
    | error e => simp [getAccountOrFail, ha, hk, mapOk]
    | ok kd => simp [getAccountOrFail, ha, hk, mapOk]

/-- Claim C5 (amended): a node referencing a resolvable account whose
babe seed is missing makes the session builder fail with the keyring's
own mnemonic error — not the incomplete-session-key error naming the
node and account, which fires only when a successfully derived id is
empty — and the pipeline aborts with no output document. -/
theorem claim_C5 (c : Crypto) (config : GenesisSpec) (cc : ChainConfig)
    (nname : String) (node : NodeCfg) (a : Account) (gp : SubAccount) (s gs : String)
    (hnodes : cc.nodes = [(nname, node)])
    (hacct : lookupAccount cc node.account = some (some a))
    (hs : a.seed = some s) (hvs : c.valid s = true)
    (hg : a.grandpa = some gp) (hgs : gp.seed = some gs) (hvgs : c.valid gs = true)
    (hb : a.babe.bind (fun b => b.seed) = none) :
    updateSession c config cc = Except.error mnemonicUndefinedMsg ∧
    mainOutput c config cc = none := by
  have hnode : sessionKeyOfNode c cc (nname, node) = Except.error mnemonicUndefinedMsg := by
    simp [sessionKeyOfNode, getAccountOrFail, hacct, loadKeyFromMemo, hs, hvs, hg, hgs, hvgs, hb]
  have hfail : ∀ cfg : GenesisSpec,
      updateSession c cfg cc = Except.error mnemonicUndefinedMsg := by
    intro cfg
    simp [updateSession, hnodes, exMap, hnode]
  have hokB : ∀ cfg : GenesisSpec, okB (updateSession c cfg cc) = false := by
    intro cfg
    rw [hfail cfg]
    rfl
  have hmem : updateSession c ∈ chainSpecModifiers c := by
    unfold chainSpecModifiers
    exact List.Mem.tail _ (List.Mem.tail _ (List.Mem.tail _ (List.Mem.tail _ (List.Mem.head _))))
  refine ⟨hfail config, ?_⟩
  apply mainOutput_eq_none
  exact runBuilders_okB_false_of_mem (updateSession c) cc hokB (chainSpecModifiers c) hmem config

/-! ### Concrete fixtures for witnesses and counterexamples -/

/-- A concrete keyring instance: every mnemonic parses, and the three
encoders are injective and pairwise distinct. -/
def demoCrypto : Crypto :=
  { valid := fun _ => true,
    srAddr := fun m => "SR-" ++ m,
    edHex := fun m => "0xED-" ++ m,
    srHex := fun m => "0xSR-" ++ m }

/-- A genesis skeleton whose `palletSudo` carries an extra field besides
`key`, to exercise the sudo builder's whole-object replacement. -/
def baseSpec : GenesisSpec :=
  { bootNodes := [], name := "", id := "", chainType := "",
    genesis := { runtime :=
      { palletBalances := { balances := [] },
        ormlTokens := { endowedAccounts := [] },
        palletSession := { keys := [] },
        palletSudo := { key := "oldkey", extra := [("note", "keep")] },
        palletStaking :=
          { invulnerables := [], validatorCount := 0,
            minimumValidatorCount := 0, stakers := [] } } } }

def demoMeta : ChainMeta := { name := "clover", id := "clover", chainType := "Live" }

def aliceAccount : Account :=
  { seed := some "A", balance := 1000, tokens := [("CLV", 10), ("DOT", 20)],
    grandpa := none, babe := none }

def bobAccount : Account :=
  { seed := some "B", balance := 500, tokens := [("CLV", 5)], grandpa := none, babe := none }

/-- Scenario: two plain accounts, sudo alice, no nodes, no staking. -/
def abCfg : ChainConfig :=
  { accounts := [("alice", some aliceAccount), ("bob", some bobAccount)],
    nodes := [], staking := [], sudo_account := some "alice", meta := demoMeta }

/-- A validator account with grandpa and babe sub-seeds. -/
def valAccount : Account :=
  { seed := some "vseed", balance := 0, tokens := [],
    grandpa := some { seed := some "gseed" }, babe := some { seed := some "bseed" } }

/-- Scenario: one node referencing account `val`. -/
def sessionCfg : ChainConfig :=
  { accounts := [("val", some valAccount)],
    nodes := [("n1", { host := "h", id := "p", account := "val" })],
    staking := [], sudo_account := some "val", meta := demoMeta }

/-- Like `valAccount` but with no babe sub-account (missing babe seed). -/
def noBabeAccount : Account :=
  { seed := some "vseed", balance := 0, tokens := [],
    grandpa := some { seed := some "gseed" }, babe := none }

/-- Scenario: one node whose account lacks the babe seed. -/
def noBabeCfg : ChainConfig :=
  { accounts := [("val", some noBabeAccount)],
    nodes := [("n1", { host := "h", id := "p", account := "val" })],
    staking := [], sudo_account := some "val", meta := demoMeta }

/-- Scenario: a present, non-empty account with no seed at all. -/
def noSeedCfg : ChainConfig :=
  { accounts :=
      [("noseed",
        some { seed := none, balance := 7, tokens := [], grandpa := none, babe := none })],
    nodes := [], staking := [], sudo_account := none, meta := demoMeta }

/-- Scenario: one validator staking entry alice/bob. -/
def stakeCfg : ChainConfig :=
  { accounts := [("alice", some aliceAccount), ("bob", some bobAccount)],
    nodes := [], staking := [{ stash := "alice", controller := "bob", role := "Validator" }],
    sudo_account := some "alice", meta := demoMeta }

/-- Scenario: a staking entry whose controller name is dangling. -/
def danglingCfg : ChainConfig :=
  { accounts := [("alice", some aliceAccount), ("bob", some bobAccount)],
    nodes := [], staking := [{ stash := "alice", controller := "ghost", role := "Validator" }],
    sudo_account := some "alice", meta := demoMeta }

/-- Extract the document of a successful builder result, defaulting on
error. -/
def okOr (d : GenesisSpec) (e : Except String GenesisSpec) : GenesisSpec :=
  match e with
  | Except.ok out => out
  | Except.error _ => d

/-- Extract a successful key bundle, defaulting on error. -/
def okOrKB (d : KeyBundle) (e : Except String KeyBundle) : KeyBundle :=
  match e with
  | Except.ok b => b
  | Except.error _ => d

def abBalOut : GenesisSpec := okOr baseSpec (updateBalances demoCrypto baseSpec abCfg)

def abTokOut : GenesisSpec := okOr baseSpec (updateTokens demoCrypto baseSpec abCfg)

def stakeOut : GenesisSpec := okOr baseSpec (updateStaking demoCrypto baseSpec stakeCfg)

def sessionOut : GenesisSpec := okOr baseSpec (updateSession demoCrypto baseSpec sessionCfg)

def sudoOut : GenesisSpec := okOr baseSpec (updateSudo demoCrypto baseSpec abCfg)

def demoBundle : KeyBundle :=
  okOrKB { address := "", pubKeyEd25519 := "", pubKeySr25519 := "" }
    (loadKeyFromMemo demoCrypto (some "m"))

/-- The first six builders of the pipeline, before `updateStaking`. -/
def c3pre : List Builder :=
  [updateBootNodes, updateNaming, updateBalances demoCrypto, updateTokens demoCrypto,
   updateSession demoCrypto, updateSudo demoCrypto]

def c3mid : GenesisSpec := okOr baseSpec (runBuilders c3pre baseSpec danglingCfg)

/-! ### Witnesses and counterexamples -/

/-- Witness for C8: the alice/bob scenario, with the computed result
`[[addr(A), 1000], [addr(B), 500]]`. -/
theorem claim_C8_witness :
    updateBalances demoCrypto baseSpec abCfg = Except.ok abBalOut ∧
    abBalOut.genesis.runtime.palletBalances.balances =
      abCfg.accounts.map (fun p => (specPrimaryAddr demoCrypto p.2, accountBalance p.2)) ∧
    abBalOut.genesis.runtime.palletBalances.balances = [("SR-A", 1000), ("SR-B", 500)] :=
  ⟨rfl, claim_C8 demoCrypto baseSpec abCfg abBalOut rfl, rfl⟩

/-- Witness for C6: the alice/bob scenario with three token entries. -/
theorem claim_C6_witness :
    updateTokens demoCrypto baseSpec abCfg = Except.ok abTokOut ∧
    (abTokOut.genesis.runtime.ormlTokens.endowedAccounts.length =
      (abCfg.accounts.map (fun p => (accountTokens p.2).length)).sum ∧
     abTokOut.genesis.runtime.ormlTokens.endowedAccounts =
      (abCfg.accounts.map (fun p => (accountTokens p.2).map
        (fun t => (specPrimaryAddr demoCrypto p.2, t.1, t.2)))).flatten) ∧
    abTokOut.genesis.runtime.ormlTokens.endowedAccounts =
      [("SR-A", "CLV", 10), ("SR-A", "DOT", 20), ("SR-B", "CLV", 5)] :=
  ⟨rfl, claim_C6 demoCrypto baseSpec abCfg abTokOut rfl, rfl⟩

/-- Witness for C2: one validator gives `validatorCount = 2`,
`minimumValidatorCount = 1`, `invulnerables = [addr(A)]`. -/
theorem claim_C2_witness :
    updateStaking demoCrypto baseSpec stakeCfg = Except.ok stakeOut ∧
    (stakeOut.genesis.runtime.palletStaking.validatorCount =
      max 2 (2 * (stakeCfg.staking.filter (fun a => a.role == "Validator")).length) ∧
     stakeOut.genesis.runtime.palletStaking.minimumValidatorCount =
      (stakeCfg.staking.filter (fun a => a.role == "Validator")).length) ∧
    stakeOut.genesis.runtime.palletStaking.validatorCount = 2 ∧
    stakeOut.genesis.runtime.palletStaking.minimumValidatorCount = 1 ∧
    stakeOut.genesis.runtime.palletStaking.invulnerables = ["SR-A"] :=
  ⟨rfl, claim_C2 demoCrypto baseSpec stakeCfg stakeOut rfl, rfl, rfl, rfl⟩

/-- Witness for C7: the alice/bob validator entry yields the single
staker 4-tuple with the fixed stake constant. -/
theorem claim_C7_witness :
    stakeCfg.staking.all (fun a => okB (getAccountOrFail demoCrypto stakeCfg a.stash) &&
      okB (getAccountOrFail demoCrypto stakeCfg a.controller)) = true ∧
    mapOk (fun out => out.genesis.runtime.palletStaking.stakers)
        (updateStaking demoCrypto baseSpec stakeCfg) =
      Except.ok (stakeCfg.staking.map (fun a => (specResolvedAddr demoCrypto stakeCfg a.stash,
        specResolvedAddr demoCrypto stakeCfg a.controller, 100000000000000, a.role))) ∧
    stakeOut.genesis.runtime.palletStaking.stakers =
      [("SR-A", "SR-B", 100000000000000, "Validator")] :=
  ⟨rfl, claim_C7 demoCrypto baseSpec stakeCfg (by decide), rfl⟩

/-- Witness for C9: a concrete derivation shows the two pubKey fields
coincide and differ from the sr25519 hex. -/
theorem claim_C9_witness :
    loadKeyFromMemo demoCrypto (some "m") = Except.ok demoBundle ∧
    (demoBundle.pubKeySr25519 = demoBundle.pubKeyEd25519 ∧
     demoBundle.pubKeyEd25519 = demoCrypto.edHex "m" ∧
     demoBundle.pubKeySr25519 = demoCrypto.edHex "m" ∧
     demoBundle.address = demoCrypto.srAddr "m" ∧
     (demoCrypto.srHex "m" ≠ demoCrypto.edHex "m" →
       demoBundle.pubKeySr25519 ≠ demoCrypto.srHex "m" ∧
       demoBundle.pubKeyEd25519 ≠ demoCrypto.srHex "m")) :=
  ⟨rfl, claim_C9 demoCrypto "m" demoBundle rfl⟩

/-- Witness for C10: the input skeleton's extra `palletSudo` field is
dropped, the key becomes alice's address, everything else is unchanged. -/
theorem claim_C10_witness :
    baseSpec.genesis.runtime.palletSudo.extra = [("note", "keep")] ∧
    updateSudo demoCrypto baseSpec abCfg = Except.ok sudoOut ∧
    (sudoOut.genesis.runtime.palletSudo.extra = [] ∧
     sudoOut.genesis.runtime.palletSudo.key =
       specResolvedAddr demoCrypto abCfg (abCfg.sudo_account.getD "") ∧
     sudoOut.bootNodes = baseSpec.bootNodes ∧ sudoOut.name = baseSpec.name ∧
     sudoOut.id = baseSpec.id ∧ sudoOut.chainType = baseSpec.chainType ∧
     sudoOut.genesis.runtime.palletBalances = baseSpec.genesis.runtime.palletBalances ∧
     sudoOut.genesis.runtime.ormlTokens = baseSpec.genesis.runtime.ormlTokens ∧
     sudoOut.genesis.runtime.palletSession = baseSpec.genesis.runtime.palletSession ∧
     sudoOut.genesis.runtime.palletStaking = baseSpec.genesis.runtime.palletStaking) ∧
    sudoOut.genesis.runtime.palletSudo = { key := "SR-A", extra := [] } :=
  ⟨rfl, rfl, claim_C10 demoCrypto baseSpec abCfg sudoOut rfl, rfl⟩

/-- Witness for the amended C1: the concrete node's triple duplicates
the account's sr25519 address and carries the sub-seeds' sr25519
addresses. -/
theorem claim_C1_witness :
    updateSession demoCrypto baseSpec sessionCfg = Except.ok sessionOut ∧
    sessionOut.genesis.runtime.palletSession.keys =
      sessionCfg.nodes.map (fun p => specSessionTriple demoCrypto sessionCfg p.2) ∧
    sessionOut.genesis.runtime.palletSession.keys =
      [("SR-vseed", "SR-vseed", { grandpa := "SR-gseed", babe := "SR-bseed" })] :=
  ⟨rfl, claim_C1 demoCrypto baseSpec sessionCfg sessionOut rfl, rfl⟩

/-- Counterexample to C1 as stated: the emitted grandpa id is the
sr25519 address "SR-gseed" of the grandpa sub-seed, not the hex-encoded
ed25519 public key "0xED-gseed" the claim requires. -/
theorem claim_C1_counterexample :
    updateSession demoCrypto baseSpec sessionCfg = Except.ok sessionOut ∧
    sessionOut.genesis.runtime.palletSession.keys.map (fun t => t.2.2.grandpa) = ["SR-gseed"] ∧
    demoCrypto.edHex "gseed" = "0xED-gseed" ∧
    ¬ sessionOut.genesis.runtime.palletSession.keys.map (fun t => t.2.2.grandpa) =
        [demoCrypto.edHex "gseed"] :=
  ⟨rfl, rfl, rfl, by decide⟩

/-- Witness for C3: the first six builders succeed on the dangling
controller scenario and `updateStaking` is the first failure, so the
pipeline returns exactly that error and writes nothing. -/
theorem claim_C3_witness :
    chainSpecModifiers demoCrypto = c3pre ++ updateStaking demoCrypto :: [] ∧
    runBuilders c3pre baseSpec danglingCfg = Except.ok c3mid ∧
    updateStaking demoCrypto c3mid danglingCfg = Except.error (unknownAccountMsg "ghost") ∧
    runPipeline demoCrypto baseSpec danglingCfg = Except.error (unknownAccountMsg "ghost") ∧
    mainOutput demoCrypto baseSpec danglingCfg = none :=
  ⟨rfl, rfl, rfl,
    (claim_C3 demoCrypto baseSpec danglingCfg c3pre (updateStaking demoCrypto) [] c3mid
      (unknownAccountMsg "ghost") rfl rfl rfl).1,
    (claim_C3 demoCrypto baseSpec danglingCfg c3pre (updateStaking demoCrypto) [] c3mid
      (unknownAccountMsg "ghost") rfl rfl rfl).2.1⟩

/-- Witness for the amended C4: a dangling name fails with the
unknown-account error carrying that name. -/
theorem claim_C4_witness :
    getAccountOrFail demoCrypto abCfg "ghost" = Except.error (unknownAccountMsg "ghost") :=
  (claim_C4 demoCrypto abCfg "ghost").1 (Or.inl rfl)

/-- Counterexample to C4 as stated: account "noseed" is present and
non-empty, yet resolution fails — and with the keyring's error, not the
unknown-account error — because the account has no seed. -/
theorem claim_C4_counterexample :
    lookupAccount noSeedCfg "noseed" ≠ none ∧
    lookupAccount noSeedCfg "noseed" ≠ some none ∧
    getAccountOrFail demoCrypto noSeedCfg "noseed" = Except.error mnemonicUndefinedMsg ∧
    mnemonicUndefinedMsg ≠ unknownAccountMsg "noseed" :=
  ⟨by decide, by decide, rfl, by decide⟩

/-- Witness for the amended C5: the node with a missing babe seed makes
the session builder fail with the keyring error and the pipeline
produces no output. -/
theorem claim_C5_witness :
    updateSession demoCrypto baseSpec noBabeCfg = Except.error mnemonicUndefinedMsg ∧
    mainOutput demoCrypto baseSpec noBabeCfg = none :=
  claim_C5 demoCrypto baseSpec noBabeCfg "n1" { host := "h", id := "p", account := "val" }
    noBabeAccount { seed := some "gseed" } "vseed" "gseed" rfl rfl rfl rfl rfl rfl rfl rfl

/-- Counterexample to C5 as stated: on the missing-babe-seed scenario
the session builder's error is the keyring's mnemonic error, which is
not the incomplete-session-key error identifying node "n1" and account
"val". -/
theorem claim_C5_counterexample :
    updateSession demoCrypto baseSpec noBabeCfg = Except.error mnemonicUndefinedMsg ∧
    mnemonicUndefinedMsg ≠ incompleteSessionMsg "n1" "val" :=
  ⟨rfl, by decide⟩

end ChainspecGen
